import Mathlib

/-!
Shallow embedding of `src/main.rs` of k8s-csi-restarter.

The core consists of two functions:
* `get_pod_names_by_storage_class` — lists all PVCs, keeps the paths
  `namespace/name` of those whose storage class is configured, then lists all
  Running pods and keeps the `ObjectPath` of every pod mounting one of those
  PVCs (subject to the owner-reference policy).
* `delete_pods_with_pvc` — groups the selected pods by namespace and issues a
  delete call per pod, failing fast on a transport error and logging a warning
  on a failure status payload.

Kubernetes objects are embedded with the same optionality as the `k8s_openapi`
types used by the source (`metadata.namespace`, `metadata.name`,
`owner_references`, `spec`, `volumes`, `storage_class_name` are all optional),
and the Rust `?` early returns become explicit `Option` matches.
-/

namespace K8sRestarter

/-- Owner reference of a k8s object (`metadata.owner_references` entries). -/
structure OwnerReference where
  kind : String
  name : String
deriving Repr, DecidableEq

/-- Object metadata, with the same optionality as `k8s_openapi`. -/
structure ObjectMeta where
  «namespace» : Option String
  name : Option String
  owner_references : Option (List OwnerReference)
deriving Repr, DecidableEq

/-- `PersistentVolumeClaimSpec`: only the field the source reads. -/
structure PVCSpec where
  storage_class_name : Option String
deriving Repr, DecidableEq

/-- `PersistentVolumeClaim` as read by the source. -/
structure PVC where
  metadata : ObjectMeta
  spec : Option PVCSpec
deriving Repr, DecidableEq

/-- `PersistentVolumeClaimVolumeSource`: `claim_name` is required in k8s. -/
structure PVCVolumeSource where
  claim_name : String
deriving Repr, DecidableEq

/-- A pod volume; `persistent_volume_claim` is absent for non-PVC volumes
(ConfigMap, EmptyDir, ...). -/
structure Volume where
  persistent_volume_claim : Option PVCVolumeSource
deriving Repr, DecidableEq

/-- `PodSpec`: only the field the source reads. -/
structure PodSpec where
  volumes : Option (List Volume)
deriving Repr, DecidableEq

/-- `PodStatus`: the phase, used by the `status.phase==Running` field selector. -/
structure PodStatus where
  phase : Option String
deriving Repr, DecidableEq

/-- `Pod` as read by the source. -/
structure Pod where
  metadata : ObjectMeta
  spec : Option PodSpec
  status : Option PodStatus
deriving Repr, DecidableEq

/-- Output of selection (`struct ObjectPath` in the source). -/
structure ObjectPath where
  «namespace» : String
  name : String
deriving Repr, DecidableEq

/-- The storage class recorded on a PVC: `pvc.spec.as_ref()?.storage_class_name.as_ref()?`. -/
def pvcStorageClass (pvc : PVC) : Option String :=
  match pvc.spec with
  | none => none
  | some spec => spec.storage_class_name

/-- The per-PVC closure of lines 102-113: keep `"{namespace}/{name}"` when the
storage class is present and configured, drop the record otherwise (each Rust
`?` is an `Option` early return). -/
def pvcPath (storage_class : List String) (pvc : PVC) : Option String :=
  match pvcStorageClass pvc with
  | none => none
  | some sc =>
    if sc ∈ storage_class then
      match pvc.metadata.«namespace», pvc.metadata.name with
      | some ns, some name => some (ns ++ "/" ++ name)
      | _, _ => none
    else none

/-- `sc_pvc_paths` (line 100): the qualifying PVC paths. -/
def sc_pvc_paths (storage_class : List String) (pvcs : List PVC) : List String :=
  pvcs.filterMap (pvcPath storage_class)

/-- The `for vol in ...` loop of lines 135-146: return the pod's `ObjectPath`
at the first volume whose claim, joined with the pod's namespace, is a
qualifying PVC path; ignore non-PVC volumes. -/
def scanVolumes (paths : List String) (ns pod_name : String) :
    List Volume → Option ObjectPath
  | [] => none
  | vol :: rest =>
    match vol.persistent_volume_claim with
    | none => scanVolumes paths ns pod_name rest
    | some pvc =>
      if (ns ++ "/" ++ pvc.claim_name) ∈ paths then
        some ⟨ns, pod_name⟩
      else
        scanVolumes paths ns pod_name rest

/-- The per-pod closure of lines 128-148: each Rust `?` is an `Option` early
return; a pod with empty owner references is dropped when `skip_uncontrolled`
is set; otherwise its volumes are scanned. -/
def podSelect (paths : List String) (skip_uncontrolled : Bool) (pod : Pod) :
    Option ObjectPath :=
  match pod.metadata.«namespace» with
  | none => none
  | some ns =>
    match pod.metadata.name with
    | none => none
    | some pod_name =>
      match pod.metadata.owner_references with
      | none => none
      | some owners =>
        if owners.isEmpty && skip_uncontrolled then
          none
        else
          match pod.spec with
          | none => none
          | some spec =>
            match spec.volumes with
            | none => none
            | some vols => scanVolumes paths ns pod_name vols

/-- `get_pod_names_by_storage_class` (lines 92-156), with the two listings as
inputs: pods mounting a qualifying PVC. -/
def get_pod_names_by_storage_class (storage_class : List String)
    (skip_uncontrolled : Bool) (pvcs : List PVC) (pods : List Pod) :
    List ObjectPath :=
  pods.filterMap (podSelect (sc_pvc_paths storage_class pvcs) skip_uncontrolled)

/-- The phase recorded in a pod's status, as the field selector reads it. -/
def podPhase (p : Pod) : Option String :=
  match p.status with
  | none => none
  | some s => s.phase

/-- Modelled from the spec: the pod listing is server-side filtered to phase
Running by the field selector `status.phase==Running` (line 124); the API
server returns exactly the pods whose `status.phase` equals `"Running"`. -/
def list_running_pods (pods : List Pod) : List Pod :=
  pods.filter fun p => podPhase p = some "Running"

/-- The selection pass with the server-side phase filter applied to the raw
pod collection. -/
def select_pass (storage_class : List String) (skip_uncontrolled : Bool)
    (pvcs : List PVC) (all_pods : List Pod) : List ObjectPath :=
  get_pod_names_by_storage_class storage_class skip_uncontrolled pvcs
    (list_running_pods all_pods)

/-- One step of the grouping loop (lines 178-181):
`entry(ns).and_modify(push name).or_insert(vec![name])` on an association
list. -/
def insertPod (m : List (String × List String)) (ns name : String) :
    List (String × List String) :=
  match m with
  | [] => [(ns, [name])]
  | (k, v) :: rest =>
    if k = ns then (k, v ++ [name]) :: rest
    else (k, v) :: insertPod rest ns name

/-- Grouping of lines 172-182: partition the selected `ObjectPath`s by
namespace. -/
def groupByNamespace (paths : List ObjectPath) : List (String × List String) :=
  paths.foldl (fun m p => insertPod m p.«namespace» p.name) []

/-- Outcome of one `pods_ns_api.delete` call (line 192): `Either::Left(pod)`
(object removed), `Either::Right(status)` with its `is_failure()` bit, or a
transport/API error surfaced by `?`. -/
inductive DeleteOutcome where
  | objectRemoved
  | statusReturned (is_failure : Bool)
  | transportError
deriving Repr, DecidableEq

/-- Observable trace of the deletion loops: the delete calls issued, in
order, and the `warn!("Failed to delete ...")` log lines (line 198). -/
structure DeleteTrace where
  issued : List (String × String)
  warnings : List (String × String)
deriving Repr, DecidableEq

/-- The inner loop of lines 191-204 for one namespace bucket: issue a delete
per pod; a transport error aborts (Rust `?`), a failure status only logs a
warning. -/
def runBucket (delete : String → String → DeleteOutcome) (ns : String) :
    List String → DeleteTrace → Except (DeleteTrace × String × String) DeleteTrace
  | [], t => .ok t
  | pod :: rest, t =>
    let t' : DeleteTrace := ⟨t.issued ++ [(ns, pod)], t.warnings⟩
    match delete ns pod with
    | .transportError => .error (t', ns, pod)
    | .objectRemoved => runBucket delete ns rest t'
    | .statusReturned true =>
      runBucket delete ns rest ⟨t'.issued, t'.warnings ++ [(ns, pod)]⟩
    | .statusReturned false => runBucket delete ns rest t'

/-- The outer loop of lines 185-205: process the namespace buckets in order;
an aborted bucket aborts the pass. -/
def runDeletes (delete : String → String → DeleteOutcome) :
    List (String × List String) → DeleteTrace →
    Except (DeleteTrace × String × String) DeleteTrace
  | [], t => .ok t
  | (ns, pods) :: rest, t =>
    match runBucket delete ns pods t with
    | .error e => .error e
    | .ok t' => runDeletes delete rest t'

/-- The deletion plan determined by the namespace buckets: one call per pod,
buckets in order. -/
def flattenGroups : List (String × List String) → List (String × String)
  | [] => []
  | (ns, pods) :: rest => pods.map (fun p => (ns, p)) ++ flattenGroups rest

/-- The two nested loops, flattened to a single walk over the deletion plan;
`runDeletes` is proved equal to this below. -/
def runFlat (delete : String → String → DeleteOutcome) :
    List (String × String) → DeleteTrace →
    Except (DeleteTrace × String × String) DeleteTrace
  | [], t => .ok t
  | (ns, pod) :: rest, t =>
    let t' : DeleteTrace := ⟨t.issued ++ [(ns, pod)], t.warnings⟩
    match delete ns pod with
    | .transportError => .error (t', ns, pod)
    | .objectRemoved => runFlat delete rest t'
    | .statusReturned true =>
      runFlat delete rest ⟨t'.issued, t'.warnings ++ [(ns, pod)]⟩
    | .statusReturned false => runFlat delete rest t'

/-- The `Settings` struct (lines 12-22). -/
structure Settings where
  bearer_token : String
  storage_class : List String
  bind_address : String
  delete_uncontrolled : Bool
  dry_run : Bool

/-- The cluster API as seen by the handler: the two listing responses (`none`
is a transport/API failure of the listing call) and the per-pod delete call,
taking the dry-run flag of the forwarded `DeleteParams`. -/
structure Cluster where
  pvc_listing : Option (List PVC)
  pod_listing : Option (List Pod)
  delete : Bool → String → String → DeleteOutcome

/-- Errors surfaced by the handler (all wrapped in `AppError` in the source). -/
inductive AppError where
  | clusterQueryError
  | clusterDeleteError (ns name : String)
deriving Repr, DecidableEq

/-- The `/delete` handler `delete_pods_with_pvc` (lines 159-209): list, select
with `skip_uncontrolled = !delete_uncontrolled`, group by namespace, delete
with fail-fast on transport errors, and return `Ok(())`. -/
def delete_pods_with_pvc (c : Cluster) (s : Settings) : Except AppError Unit :=
  match c.pvc_listing with
  | none => .error .clusterQueryError
  | some pvcs =>
    match c.pod_listing with
    | none => .error .clusterQueryError
    | some pods =>
      let pvc_pods :=
        get_pod_names_by_storage_class s.storage_class (!s.delete_uncontrolled)
          pvcs pods
      match runDeletes (c.delete s.dry_run) (groupByNamespace pvc_pods) ⟨[], []⟩ with
      | .error (_, ns, name) => .error (.clusterDeleteError ns name)
      | .ok _ => .ok ()

/-- The delete calls a pass plans for given settings and listings: selection,
grouping, then one call per pod. -/
def planned_calls (s : Settings) (pvcs : List PVC) (pods : List Pod) :
    List (String × String) :=
  flattenGroups (groupByNamespace
    (get_pod_names_by_storage_class s.storage_class (!s.delete_uncontrolled)
      pvcs pods))

/-! Concrete fixtures used by the witness theorems. -/

/-- A PVC `ns2/data-b` with the configured storage class `fast-ssd`. -/
def pvcB : PVC := ⟨⟨some "ns2", some "data-b", none⟩, some ⟨some "fast-ssd"⟩⟩

/-- A Running pod `ns2/cronjob-xyz` with an empty owner-reference list that
mounts claim `data-b`. -/
def podUncontrolled : Pod :=
  ⟨⟨some "ns2", some "cronjob-xyz", some []⟩,
   some ⟨some [⟨some ⟨"data-b"⟩⟩]⟩, some ⟨some "Running"⟩⟩

/-- A pod whose `owner_references` field is absent entirely, mounting the same
qualifying claim `data-b`. -/
def podNoOwnerField : Pod :=
  ⟨⟨some "ns2", some "orphan", none⟩,
   some ⟨some [⟨some ⟨"data-b"⟩⟩]⟩, some ⟨some "Running"⟩⟩

/-- A controlled Running pod `ns2/web-0` mounting two qualifying claims
(`data-b` twice). -/
def podTwoClaims : Pod :=
  ⟨⟨some "ns2", some "web-0", some [⟨"ReplicaSet", "rs-1"⟩]⟩,
   some ⟨some [⟨some ⟨"data-b"⟩⟩, ⟨some ⟨"data-b"⟩⟩]⟩, some ⟨some "Running"⟩⟩

/-- A Succeeded pod `ns2/done` mounting the qualifying claim `data-b`. -/
def podSucceeded : Pod :=
  ⟨⟨some "ns2", some "done", some [⟨"Job", "job-1"⟩]⟩,
   some ⟨some [⟨some ⟨"data-b"⟩⟩]⟩, some ⟨some "Succeeded"⟩⟩

/-- A PVC with a configured storage class but no `metadata.name`. -/
def pvcNoName : PVC := ⟨⟨some "ns2", none, none⟩, some ⟨some "fast-ssd"⟩⟩

/-- A pod with no `metadata.name`, mounting the qualifying claim `data-b`. -/
def podNoName : Pod :=
  ⟨⟨some "ns2", none, some [⟨"ReplicaSet", "rs-1"⟩]⟩,
   some ⟨some [⟨some ⟨"data-b"⟩⟩]⟩, some ⟨some "Running"⟩⟩

/-- A PVC `ns3/data-c` with the configured storage class `fast-ssd`. -/
def pvcC : PVC := ⟨⟨some "ns3", some "data-c", none⟩, some ⟨some "fast-ssd"⟩⟩

/-- A controlled Running pod `ns2/web-1` mounting claim `data-b`. -/
def podWeb1 : Pod :=
  ⟨⟨some "ns2", some "web-1", some [⟨"ReplicaSet", "rs-1"⟩]⟩,
   some ⟨some [⟨some ⟨"data-b"⟩⟩]⟩, some ⟨some "Running"⟩⟩

/-- A controlled Running pod `ns3/app-0` mounting claim `data-c`. -/
def podApp0 : Pod :=
  ⟨⟨some "ns3", some "app-0", some [⟨"StatefulSet", "app"⟩]⟩,
   some ⟨some [⟨some ⟨"data-c"⟩⟩]⟩, some ⟨some "Running"⟩⟩

/-- Settings with storage class `fast-ssd`, uncontrolled pods skipped, no
dry run. -/
def settingsFixture : Settings :=
  ⟨"secret", ["fast-ssd"], "0.0.0.0:3000", false, false⟩

/-- A cluster whose delete call fails at the transport level exactly for pod
`web-1`, with listings that select `ns2/web-0`, `ns2/web-1` and
`ns3/app-0`. -/
def clusterFailWeb1 : Cluster :=
  ⟨some [pvcB, pvcC], some [podTwoClaims, podWeb1, podApp0],
   fun _ _ pod => if pod = "web-1" then .transportError else .objectRemoved⟩

/-- A delete behaviour returning a failure status for `ns1/a` and removing
every other pod. -/
def deleteWarnA (ns pod : String) : DeleteOutcome :=
  if ns = "ns1" ∧ pod = "a" then .statusReturned true else .objectRemoved

/-- A cluster whose every delete call returns a failure status payload. -/
def clusterAllUnconfirmed : Cluster :=
  ⟨some [pvcB, pvcC], some [podTwoClaims, podWeb1, podApp0],
   fun _ _ _ => .statusReturned true⟩

/-! Helper lemmas about the selection functions. -/

theorem scanVolumes_eq_some (paths : List String) (ns pod_name : String)
    (vols : List Volume)
    (h : ∃ vol ∈ vols, ∃ c, vol.persistent_volume_claim = some c ∧
      (ns ++ "/" ++ c.claim_name) ∈ paths) :
    scanVolumes paths ns pod_name vols = some ⟨ns, pod_name⟩ := by
  induction vols with
  | nil => rcases h with ⟨v, hv, _⟩; exact absurd hv (List.not_mem_nil v)
  | cons vol rest ih =>
    rcases h with ⟨v, hv, c, hc, hmem⟩
    rcases List.mem_cons.mp hv with rfl | hv'
    · simp [scanVolumes, hc, hmem]
    · cases hpc : vol.persistent_volume_claim with
      | none => simpa [scanVolumes, hpc] using ih ⟨v, hv', c, hc, hmem⟩
      | some c' =>
        by_cases hm : (ns ++ "/" ++ c'.claim_name) ∈ paths
        · simp [scanVolumes, hpc, hm]
        · simpa [scanVolumes, hpc, hm] using ih ⟨v, hv', c, hc, hmem⟩

theorem podSelect_eq_none_of_no_owner_field (paths : List String)
    (skip : Bool) (pod : Pod) (hown : pod.metadata.owner_references = none) :
    podSelect paths skip pod = none := by
  cases hns : pod.metadata.«namespace» <;>
    cases hname : pod.metadata.name <;>
      simp [podSelect, hns, hname, hown]

theorem podSelect_eq_none_of_missing_meta (paths : List String)
    (skip : Bool) (pod : Pod)
    (h : pod.metadata.«namespace» = none ∨ pod.metadata.name = none) :
    podSelect paths skip pod = none := by
  rcases h with h | h
  · simp [podSelect, h]
  · cases hns : pod.metadata.«namespace» <;> simp [podSelect, hns, h]

theorem pvcPath_eq_none_of_missing_meta (sc : List String) (pvc : PVC)
    (h : pvc.metadata.«namespace» = none ∨ pvc.metadata.name = none) :
    pvcPath sc pvc = none := by
  unfold pvcPath
  cases hsc : pvcStorageClass pvc with
  | none => rfl
  | some s =>
    by_cases hmem : s ∈ sc
    · rcases h with h | h
      · simp [hmem, h]
      · cases hns : pvc.metadata.«namespace» <;> simp [hmem, hns, h]
    · simp [hmem]

/-! Claim theorems about selection. -/

/-- C1: a pod whose owner-reference list is present but empty and which
mounts a qualifying PVC is not selected when uncontrolled pods are skipped
(`delete_uncontrolled = false`, so `skip_uncontrolled = !false`), and is
selected when they are allowed (`delete_uncontrolled = true`). -/
theorem empty_owner_refs_selected_iff_allowed
    (sc : List String) (pvcs : List PVC) (pod : Pod) (ns pod_name : String)
    (spec : PodSpec) (vols : List Volume)
    (hns : pod.metadata.«namespace» = some ns)
    (hname : pod.metadata.name = some pod_name)
    (hown : pod.metadata.owner_references = some [])
    (hspec : pod.spec = some spec)
    (hvols : spec.volumes = some vols)
    (hqual : ∃ vol ∈ vols, ∃ c, vol.persistent_volume_claim = some c ∧
      (ns ++ "/" ++ c.claim_name) ∈ sc_pvc_paths sc pvcs) :
    get_pod_names_by_storage_class sc (!false) pvcs [pod] = [] ∧
    get_pod_names_by_storage_class sc (!true) pvcs [pod] =
      [⟨ns, pod_name⟩] := by
  have hscan := scanVolumes_eq_some (sc_pvc_paths sc pvcs) ns pod_name vols hqual
  constructor <;>
    simp [get_pod_names_by_storage_class, podSelect, hns, hname, hown, hspec,
      hvols, hscan]

/-- C1 witness: the uncontrolled pod `ns2/cronjob-xyz` mounting qualifying
claim `data-b` is dropped with `delete_uncontrolled = false` and selected
with `delete_uncontrolled = true`. -/
theorem empty_owner_refs_selected_iff_allowed_witness :
    get_pod_names_by_storage_class ["fast-ssd"] (!false) [pvcB]
      [podUncontrolled] = [] ∧
    get_pod_names_by_storage_class ["fast-ssd"] (!true) [pvcB]
      [podUncontrolled] = [⟨"ns2", "cronjob-xyz"⟩] :=
  empty_owner_refs_selected_iff_allowed ["fast-ssd"] [pvcB] podUncontrolled
    "ns2" "cronjob-xyz" ⟨some [⟨some ⟨"data-b"⟩⟩]⟩ [⟨some ⟨"data-b"⟩⟩]
    rfl rfl rfl rfl rfl
    ⟨⟨some ⟨"data-b"⟩⟩, by decide, ⟨"data-b"⟩, rfl, by decide⟩

/-- C2: a pod whose `owner_references` field is absent (`None`) is never
selected, for either value of `skip_uncontrolled`, because the `?` on
`owner_references` drops the pod before its volumes are scanned. -/
theorem absent_owner_refs_never_selected
    (sc : List String) (skip : Bool) (pvcs : List PVC) (pod : Pod)
    (hown : pod.metadata.owner_references = none) :
    get_pod_names_by_storage_class sc skip pvcs [pod] = [] := by
  simp [get_pod_names_by_storage_class,
    podSelect_eq_none_of_no_owner_field _ skip pod hown]

/-- C2 witness: the pod `ns2/orphan` with no `owner_references` field and a
qualifying claim is not selected even with `skip_uncontrolled = false`. -/
theorem absent_owner_refs_never_selected_witness :
    get_pod_names_by_storage_class ["fast-ssd"] false [pvcB]
      [podNoOwnerField] = [] :=
  absent_owner_refs_never_selected ["fast-ssd"] false [pvcB] podNoOwnerField rfl

/-- C3: a PVC record (namespace and name present) contributes its path to the
qualifying set iff its storage class is present and a member, by exact string
equality, of the configured list; otherwise it contributes nothing. -/
theorem pvc_contributes_iff_storage_class_member
    (sc : List String) (pvc : PVC) (ns pvc_name : String)
    (hns : pvc.metadata.«namespace» = some ns)
    (hname : pvc.metadata.name = some pvc_name) :
    (sc_pvc_paths sc [pvc] = [ns ++ "/" ++ pvc_name] ↔
      ∃ s, pvcStorageClass pvc = some s ∧ s ∈ sc) ∧
    (sc_pvc_paths sc [pvc] = [] ↔
      ¬ ∃ s, pvcStorageClass pvc = some s ∧ s ∈ sc) := by
  unfold sc_pvc_paths pvcPath
  cases hsc : pvcStorageClass pvc with
  | none => simp [hsc]
  | some s =>
    by_cases hmem : s ∈ sc
    · simp [hsc, hmem, hns, hname]
    · simp [hsc, hmem]

/-- C3 witness: `ns2/data-b` with class `fast-ssd` contributes `ns2/data-b`
against the configured list `[fast-ssd]` and nothing against `[slow-hdd]`. -/
theorem pvc_contributes_iff_storage_class_member_witness :
    sc_pvc_paths ["fast-ssd"] [pvcB] = ["ns2/data-b"] ∧
    sc_pvc_paths ["slow-hdd"] [pvcB] = [] := by
  constructor
  · exact (pvc_contributes_iff_storage_class_member ["fast-ssd"] pvcB "ns2"
      "data-b" rfl rfl).1.mpr ⟨"fast-ssd", rfl, by decide⟩
  · exact (pvc_contributes_iff_storage_class_member ["slow-hdd"] pvcB "ns2"
      "data-b" rfl rfl).2.mpr (by decide)

/-- C4: selection emits at most one `ObjectPath` per input pod (the output is
never longer than the input, and a single pod yields at most one entry), and
the volume scan stops at the first qualifying volume regardless of the
remaining volumes. -/
theorem pod_selected_at_most_once
    (sc : List String) (skip : Bool) (pvcs : List PVC) (pods : List Pod) :
    (get_pod_names_by_storage_class sc skip pvcs pods).length ≤ pods.length ∧
    (∀ pod, (get_pod_names_by_storage_class sc skip pvcs [pod]).length ≤ 1) ∧
    (∀ paths ns pod_name (vol : Volume) rest c,
      vol.persistent_volume_claim = some c →
      (ns ++ "/" ++ c.claim_name) ∈ paths →
      scanVolumes paths ns pod_name (vol :: rest) =
        some ⟨ns, pod_name⟩) := by
  refine ⟨List.length_filterMap_le _ _, fun pod => ?_, ?_⟩
  · exact List.length_filterMap_le _ [pod]
  · intro paths ns pod_name vol rest c hc hm
    simp [scanVolumes, hc, hm]

/-- C4 witness: the pod `ns2/web-0` mounting two qualifying claims is
selected at most once, and the scan of its volume list stops at the first
qualifying volume. -/
theorem pod_selected_at_most_once_witness :
    (get_pod_names_by_storage_class ["fast-ssd"] true [pvcB]
      [podTwoClaims]).length ≤ 1 ∧
    scanVolumes ["ns2/data-b"] "ns2" "web-0"
      [⟨some ⟨"data-b"⟩⟩, ⟨some ⟨"data-b"⟩⟩] = some ⟨"ns2", "web-0"⟩ := by
  have h := pod_selected_at_most_once ["fast-ssd"] true [pvcB] [podTwoClaims]
  exact ⟨h.2.1 podTwoClaims,
    h.2.2 ["ns2/data-b"] "ns2" "web-0" ⟨some ⟨"data-b"⟩⟩ [⟨some ⟨"data-b"⟩⟩]
      ⟨"data-b"⟩ rfl (by decide)⟩

/-- C8: a pod whose status phase is not `Running` is dropped by the
server-side field selector, so its presence anywhere in the raw pod
collection never changes the selection. -/
theorem non_running_pod_never_selected
    (sc : List String) (skip : Bool) (pvcs : List PVC)
    (l1 l2 : List Pod) (pod : Pod)
    (h : podPhase pod ≠ some "Running") :
    select_pass sc skip pvcs (l1 ++ pod :: l2) =
      select_pass sc skip pvcs (l1 ++ l2) := by
  unfold select_pass list_running_pods
  simp [List.filter_append, List.filter_cons, h]

/-- C8 witness: adding the Succeeded pod `ns2/done`, which mounts a
qualifying claim, to the raw collection does not change the selection. -/
theorem non_running_pod_never_selected_witness :
    select_pass ["fast-ssd"] true [pvcB] ([podUncontrolled] ++
      podSucceeded :: [podTwoClaims]) =
      select_pass ["fast-ssd"] true [pvcB] ([podUncontrolled] ++
        [podTwoClaims]) :=
  non_running_pod_never_selected ["fast-ssd"] true [pvcB] [podUncontrolled]
    [podTwoClaims] podSucceeded (by decide)

/-- C9: an entry missing its namespace or name contributes nothing and is
silently skipped: removing it from the listing leaves the qualifying paths
(for a PVC) and the selection output (for a pod) unchanged, and selection is
total, so such an entry can never fail the pass. -/
theorem malformed_entries_silently_skipped
    (sc : List String) (skip : Bool) :
    (∀ (pvc : PVC) (l1 l2 : List PVC),
      pvc.metadata.«namespace» = none ∨ pvc.metadata.name = none →
      sc_pvc_paths sc (l1 ++ pvc :: l2) = sc_pvc_paths sc (l1 ++ l2)) ∧
    (∀ (pod : Pod) (pvcs : List PVC) (p1 p2 : List Pod),
      pod.metadata.«namespace» = none ∨ pod.metadata.name = none →
      get_pod_names_by_storage_class sc skip pvcs (p1 ++ pod :: p2) =
        get_pod_names_by_storage_class sc skip pvcs (p1 ++ p2)) := by
  constructor
  · intro pvc l1 l2 h
    simp [sc_pvc_paths, List.filterMap_append,
      pvcPath_eq_none_of_missing_meta sc pvc h]
  · intro pod pvcs p1 p2 h
    simp [get_pod_names_by_storage_class, List.filterMap_append,
      podSelect_eq_none_of_missing_meta _ skip pod h]

/-- C9 witness: a name-less PVC with a configured class and a name-less pod
with a qualifying claim are both skipped without affecting the other
entries. -/
theorem malformed_entries_silently_skipped_witness :
    sc_pvc_paths ["fast-ssd"] ([pvcB] ++ pvcNoName :: []) =
      sc_pvc_paths ["fast-ssd"] ([pvcB] ++ []) ∧
    get_pod_names_by_storage_class ["fast-ssd"] true [pvcB]
      ([podTwoClaims] ++ podNoName :: []) =
      get_pod_names_by_storage_class ["fast-ssd"] true [pvcB]
        ([podTwoClaims] ++ []) := by
  have h := malformed_entries_silently_skipped ["fast-ssd"] true
  exact ⟨h.1 pvcNoName [pvcB] [] (Or.inr rfl),
    h.2 podNoName [pvcB] [podTwoClaims] [] (Or.inr rfl)⟩

/-! Helper lemmas about the deletion loops. -/


theorem runFlat_nil (delete : String → String → DeleteOutcome)
    (t : DeleteTrace) : runFlat delete [] t = .ok t := rfl

theorem runFlat_cons (delete : String → String → DeleteOutcome)
    (ns pod : String) (rest : List (String × String)) (t : DeleteTrace) :
    runFlat delete ((ns, pod) :: rest) t =
      match delete ns pod with
      | .transportError =>
        .error (⟨t.issued ++ [(ns, pod)], t.warnings⟩, ns, pod)
      | .objectRemoved =>
        runFlat delete rest ⟨t.issued ++ [(ns, pod)], t.warnings⟩
      | .statusReturned true =>
        runFlat delete rest
          ⟨t.issued ++ [(ns, pod)], t.warnings ++ [(ns, pod)]⟩
      | .statusReturned false =>
        runFlat delete rest ⟨t.issued ++ [(ns, pod)], t.warnings⟩ := rfl

theorem runFlat_append (delete : String → String → DeleteOutcome)
    (a b : List (String × String)) (t : DeleteTrace) :
    runFlat delete (a ++ b) t =
      match runFlat delete a t with
      | .error e => .error e
      | .ok t' => runFlat delete b t' := by
  induction a generalizing t with
  | nil => simp [runFlat]
  | cons c rest ih =>
    obtain ⟨ns, pod⟩ := c
    rw [List.cons_append]
    cases hd : delete ns pod with
    | transportError => simp only [runFlat_cons, hd]
    | objectRemoved => simp only [runFlat_cons, hd]; exact ih _
    | statusReturned f =>
      cases f <;> (simp only [runFlat_cons, hd]; exact ih _)

theorem runBucket_eq_runFlat (delete : String → String → DeleteOutcome)
    (ns : String) (pods : List String) (t : DeleteTrace) :
    runBucket delete ns pods t =
      runFlat delete (pods.map fun p => (ns, p)) t := by
  induction pods generalizing t with
  | nil => rfl
  | cons pod rest ih =>
    rw [List.map_cons]
    cases hd : delete ns pod with
    | transportError => simp only [runBucket, runFlat_cons, hd]
    | objectRemoved => simp only [runBucket, runFlat_cons, hd]; exact ih _
    | statusReturned f =>
      cases f <;> (simp only [runBucket, runFlat_cons, hd]; exact ih _)

theorem runDeletes_eq_runFlat (delete : String → String → DeleteOutcome)
    (groups : List (String × List String)) (t : DeleteTrace) :
    runDeletes delete groups t = runFlat delete (flattenGroups groups) t := by
  induction groups generalizing t with
  | nil => rfl
  | cons g rest ih =>
    obtain ⟨ns, pods⟩ := g
    simp only [runDeletes, flattenGroups, runFlat_append, runBucket_eq_runFlat]
    cases runFlat delete (pods.map fun p => (ns, p)) t with
    | error e => rfl
    | ok t' => exact ih t'

theorem runFlat_ok (delete : String → String → DeleteOutcome)
    (plan : List (String × String)) (t : DeleteTrace)
    (h : ∀ q ∈ plan, delete q.1 q.2 ≠ .transportError) :
    runFlat delete plan t =
      .ok ⟨t.issued ++ plan, t.warnings ++
        plan.filter fun q =>
          delete q.1 q.2 = DeleteOutcome.statusReturned true⟩ := by
  induction plan generalizing t with
  | nil => simp [runFlat]
  | cons q rest ih =>
    obtain ⟨ns, pod⟩ := q
    have hne := h (ns, pod) (List.mem_cons_self _ _)
    have hrest : ∀ q ∈ rest, delete q.1 q.2 ≠ .transportError :=
      fun q hq => h q (List.mem_cons_of_mem _ hq)
    cases hd : delete ns pod with
    | transportError => exact absurd hd hne
    | objectRemoved =>
      simp only [runFlat_cons, hd]
      rw [ih _ hrest]
      simp [List.filter_cons, hd]
    | statusReturned f =>
      cases f <;>
        (simp only [runFlat_cons, hd]; rw [ih _ hrest];
          simp [List.filter_cons, hd])

theorem runFlat_error (delete : String → String → DeleteOutcome)
    (pre : List (String × String)) (ns pod : String)
    (post : List (String × String)) (t : DeleteTrace)
    (hpre : ∀ q ∈ pre, delete q.1 q.2 ≠ .transportError)
    (herr : delete ns pod = .transportError) :
    ∃ w, runFlat delete (pre ++ (ns, pod) :: post) t =
      .error (⟨t.issued ++ pre ++ [(ns, pod)], w⟩, ns, pod) := by
  induction pre generalizing t with
  | nil =>
    refine ⟨t.warnings, ?_⟩
    simp [runFlat_cons, herr]
  | cons q rest ih =>
    obtain ⟨ns', pod'⟩ := q
    have hne := hpre (ns', pod') (List.mem_cons_self _ _)
    have hrest : ∀ q ∈ rest, delete q.1 q.2 ≠ .transportError :=
      fun q hq => hpre q (List.mem_cons_of_mem _ hq)
    rw [List.cons_append]
    cases hd : delete ns' pod' with
    | transportError => exact absurd hd hne
    | objectRemoved =>
      obtain ⟨w, hw⟩ := ih hrest (t := ⟨t.issued ++ [(ns', pod')], t.warnings⟩)
      refine ⟨w, ?_⟩
      simp only [runFlat_cons, hd]
      rw [hw]
      simp
    | statusReturned f =>
      cases f
      · obtain ⟨w, hw⟩ := ih hrest
          (t := ⟨t.issued ++ [(ns', pod')], t.warnings⟩)
        refine ⟨w, ?_⟩
        simp only [runFlat_cons, hd]
        rw [hw]
        simp
      · obtain ⟨w, hw⟩ := ih hrest
          (t := ⟨t.issued ++ [(ns', pod')], t.warnings ++ [(ns', pod')]⟩)
        refine ⟨w, ?_⟩
        simp only [runFlat_cons, hd]
        rw [hw]
        simp

theorem delete_pods_with_pvc_eq (c : Cluster) (s : Settings)
    (pvcs : List PVC) (pods : List Pod)
    (hpvc : c.pvc_listing = some pvcs) (hpod : c.pod_listing = some pods) :
    delete_pods_with_pvc c s =
      match runDeletes (c.delete s.dry_run)
          (groupByNamespace (get_pod_names_by_storage_class s.storage_class
            (!s.delete_uncontrolled) pvcs pods)) ⟨[], []⟩ with
      | .error (_, ns, name) => .error (.clusterDeleteError ns name)
      | .ok _ => .ok () := by
  unfold delete_pods_with_pvc
  rw [hpvc, hpod]

/-! Claim theorems about deletion. -/

/-- C5: when the delete call for some planned pod fails at the transport
level and every planned call before it did not, the pass issues exactly the
calls up to and including the failing one — nothing after it, in the same
bucket or in later buckets, is issued — and the handler surfaces the error
to its caller as a `clusterDeleteError`. -/
theorem transport_error_fails_fast
    (c : Cluster) (s : Settings) (pvcs : List PVC) (pods : List Pod)
    (pre : List (String × String)) (ns pod : String)
    (post : List (String × String))
    (hpvc : c.pvc_listing = some pvcs) (hpod : c.pod_listing = some pods)
    (hplan : planned_calls s pvcs pods = pre ++ (ns, pod) :: post)
    (hpre : ∀ q ∈ pre, c.delete s.dry_run q.1 q.2 ≠ .transportError)
    (herr : c.delete s.dry_run ns pod = .transportError) :
    (∃ w, runDeletes (c.delete s.dry_run)
        (groupByNamespace (get_pod_names_by_storage_class s.storage_class
          (!s.delete_uncontrolled) pvcs pods)) ⟨[], []⟩ =
      .error (⟨pre ++ [(ns, pod)], w⟩, ns, pod)) ∧
    delete_pods_with_pvc c s = .error (.clusterDeleteError ns pod) := by
  obtain ⟨w, hw⟩ :=
    runFlat_error (c.delete s.dry_run) pre ns pod post ⟨[], []⟩ hpre herr
  have hplan' : flattenGroups (groupByNamespace
      (get_pod_names_by_storage_class s.storage_class
        (!s.delete_uncontrolled) pvcs pods)) = pre ++ (ns, pod) :: post :=
    hplan
  have hrun : runDeletes (c.delete s.dry_run)
      (groupByNamespace (get_pod_names_by_storage_class s.storage_class
        (!s.delete_uncontrolled) pvcs pods)) ⟨[], []⟩ =
      .error (⟨pre ++ [(ns, pod)], w⟩, ns, pod) := by
    rw [runDeletes_eq_runFlat, hplan', hw]
    simp
  refine ⟨⟨w, hrun⟩, ?_⟩
  rw [delete_pods_with_pvc_eq c s pvcs pods hpvc hpod, hrun]

/-- C5 witness: with pods `ns2/web-0`, `ns2/web-1`, `ns3/app-0` planned and
the transport failing on `web-1`, only the first two calls are issued and the
handler returns a `clusterDeleteError`. -/
theorem transport_error_fails_fast_witness :
    (∃ w, runDeletes (clusterFailWeb1.delete settingsFixture.dry_run)
        (groupByNamespace (get_pod_names_by_storage_class
          settingsFixture.storage_class (!settingsFixture.delete_uncontrolled)
          [pvcB, pvcC] [podTwoClaims, podWeb1, podApp0])) ⟨[], []⟩ =
      .error (⟨[("ns2", "web-0"), ("ns2", "web-1")], w⟩, "ns2", "web-1")) ∧
    delete_pods_with_pvc clusterFailWeb1 settingsFixture =
      .error (.clusterDeleteError "ns2" "web-1") :=
  transport_error_fails_fast clusterFailWeb1 settingsFixture [pvcB, pvcC]
    [podTwoClaims, podWeb1, podApp0] [("ns2", "web-0")] "ns2" "web-1"
    [("ns3", "app-0")] rfl rfl (by decide) (by decide) rfl

/-- C6: when no planned delete call fails at the transport level, the pass
runs to completion: every planned call — in the bucket of a failure-status
response and in all later buckets alike — is issued, the pass does not
abort, and exactly the failure-status responses are recorded as warnings. -/
theorem failure_status_does_not_abort
    (delete : String → String → DeleteOutcome)
    (groups : List (String × List String))
    (h : ∀ q ∈ flattenGroups groups, delete q.1 q.2 ≠ .transportError) :
    runDeletes delete groups ⟨[], []⟩ =
      .ok ⟨flattenGroups groups,
        (flattenGroups groups).filter
          fun q => delete q.1 q.2 = DeleteOutcome.statusReturned true⟩ := by
  rw [runDeletes_eq_runFlat, runFlat_ok delete _ _ h]
  simp

/-- C6 witness: the call for `ns1/a` returns a failure status, yet the pass
still issues the call for `ns3/b`, succeeds, and records one warning. -/
theorem failure_status_does_not_abort_witness :
    runDeletes deleteWarnA [("ns1", ["a"]), ("ns3", ["b"])] ⟨[], []⟩ =
      .ok ⟨[("ns1", "a"), ("ns3", "b")], [("ns1", "a")]⟩ := by
  rw [failure_status_does_not_abort deleteWarnA
    [("ns1", ["a"]), ("ns3", ["b"])] (by decide)]
  rfl

/-- C10: whenever both listings succeed and no planned delete call fails at
the transport level — even if every delete returns a failure status payload —
the handler returns `Ok(())`, a unit value carrying no count of confirmed or
unconfirmed deletions. -/
theorem pass_ok_without_transport_errors
    (c : Cluster) (s : Settings) (pvcs : List PVC) (pods : List Pod)
    (hpvc : c.pvc_listing = some pvcs) (hpod : c.pod_listing = some pods)
    (h : ∀ q ∈ planned_calls s pvcs pods,
      c.delete s.dry_run q.1 q.2 ≠ .transportError) :
    delete_pods_with_pvc c s = .ok () := by
  rw [delete_pods_with_pvc_eq c s pvcs pods hpvc hpod, runDeletes_eq_runFlat]
  have hplan : flattenGroups (groupByNamespace
      (get_pod_names_by_storage_class s.storage_class
        (!s.delete_uncontrolled) pvcs pods)) = planned_calls s pvcs pods := rfl
  rw [hplan, runFlat_ok _ _ _ h]

/-- C10 witness: a cluster whose every delete call returns a failure status
payload still yields `Ok(())` from the handler. -/
theorem pass_ok_without_transport_errors_witness :
    delete_pods_with_pvc clusterAllUnconfirmed settingsFixture = .ok () :=
  pass_ok_without_transport_errors clusterAllUnconfirmed settingsFixture
    [pvcB, pvcC] [podTwoClaims, podWeb1, podApp0] rfl rfl (by decide)

/-! Helper lemmas about grouping. -/

theorem insertPod_self (k : String) (v : List String)
    (rest : List (String × List String)) (pod_name : String) :
    insertPod ((k, v) :: rest) k pod_name = (k, v ++ [pod_name]) :: rest := by
  simp [insertPod]

theorem insertPod_ne (k ns : String) (v : List String)
    (rest : List (String × List String)) (pod_name : String) (h : k ≠ ns) :
    insertPod ((k, v) :: rest) ns pod_name =
      (k, v) :: insertPod rest ns pod_name := by
  simp [insertPod, h]

theorem flattenGroups_insertPod (m : List (String × List String))
    (ns pod_name : String) :
    List.Perm (flattenGroups (insertPod m ns pod_name))
      (flattenGroups m ++ [(ns, pod_name)]) := by
  induction m with
  | nil => simp [insertPod, flattenGroups]
  | cons kv rest ih =>
    obtain ⟨k, v⟩ := kv
    rcases eq_or_ne k ns with rfl | hk
    · rw [insertPod_self]
      simp only [flattenGroups, List.map_append, List.map_cons, List.map_nil,
        List.append_assoc, List.singleton_append, List.nil_append]
      exact ((List.perm_append_singleton _ _).symm).append_left _
    · rw [insertPod_ne _ _ _ _ _ hk]
      simp only [flattenGroups, List.append_assoc]
      exact ih.append_left _

theorem flattenGroups_foldl (paths : List ObjectPath)
    (m : List (String × List String)) :
    List.Perm
      (flattenGroups
        (paths.foldl (fun m p => insertPod m p.«namespace» p.name) m))
      (flattenGroups m ++ paths.map fun p => (p.«namespace», p.name)) := by
  induction paths generalizing m with
  | nil => simp
  | cons p rest ih =>
    simp only [List.foldl_cons, List.map_cons]
    refine (ih _).trans ?_
    refine ((flattenGroups_insertPod m p.«namespace» p.name).append_right
      _).trans ?_
    rw [List.append_assoc, List.singleton_append]

theorem mem_keys_insertPod (m : List (String × List String))
    (ns pod_name x : String) :
    x ∈ (insertPod m ns pod_name).map Prod.fst ↔
      x ∈ m.map Prod.fst ∨ x = ns := by
  induction m with
  | nil => simp [insertPod]
  | cons kv rest ih =>
    obtain ⟨k, v⟩ := kv
    rcases eq_or_ne k ns with rfl | hk
    · rw [insertPod_self]
      simp only [List.map_cons, List.mem_cons]
      tauto
    · rw [insertPod_ne _ _ _ _ _ hk]
      simp only [List.map_cons, List.mem_cons, ih]
      tauto

theorem nodup_keys_insertPod (m : List (String × List String))
    (ns pod_name : String) (h : (m.map Prod.fst).Nodup) :
    ((insertPod m ns pod_name).map Prod.fst).Nodup := by
  induction m with
  | nil => simp [insertPod]
  | cons kv rest ih =>
    obtain ⟨k, v⟩ := kv
    simp only [List.map_cons, List.nodup_cons] at h
    obtain ⟨hk_not, hrest⟩ := h
    rcases eq_or_ne k ns with rfl | hk
    · rw [insertPod_self]
      simp only [List.map_cons, List.nodup_cons]
      exact ⟨hk_not, hrest⟩
    · rw [insertPod_ne _ _ _ _ _ hk]
      simp only [List.map_cons, List.nodup_cons]
      refine ⟨fun hmem => ?_, ih hrest⟩
      rcases (mem_keys_insertPod rest ns pod_name k).mp hmem with h' | h'
      · exact hk_not h'
      · exact hk h'

theorem nodup_keys_foldl (paths : List ObjectPath)
    (m : List (String × List String)) (h : (m.map Prod.fst).Nodup) :
    ((paths.foldl (fun m p => insertPod m p.«namespace» p.name) m).map
      Prod.fst).Nodup := by
  induction paths generalizing m with
  | nil => exact h
  | cons p rest ih => exact ih _ (nodup_keys_insertPod m p.«namespace» p.name h)

/-! Claim theorem about grouping. -/

/-- C7: grouping by namespace is a lossless partition: the multiset of
`(namespace, name)` pairs collected over all buckets equals the multiset of
pairs in the input, and the bucket keys are pairwise distinct, so every
selected pod lands in exactly one bucket. -/
theorem grouping_is_lossless_partition (paths : List ObjectPath) :
    (↑(flattenGroups (groupByNamespace paths)) : Multiset (String × String)) =
      ↑(paths.map fun p => (p.«namespace», p.name)) ∧
    ((groupByNamespace paths).map Prod.fst).Nodup := by
  constructor
  · rw [Multiset.coe_eq_coe]
    simpa [groupByNamespace, flattenGroups] using flattenGroups_foldl paths []
  · exact nodup_keys_foldl paths [] (by simp)

end K8sRestarter
